import Mathlib

/-!
Verification development for the creature-breeding core: the genetic trait
model (`GeneticsManager`), the breeding transaction (`BreedingManager`), the
autonomous evolution loop (`EvolutionSimulator`), the creature lifecycle
(`Creature`), pool import (`MultiplayerPoolManager.mergeCreatures`) and the
save/load control flow (`SaveLoadManager.loadGame` / `Game.loadGame`).

Modelling conventions:
- JavaScript numbers are embedded as rationals (`ℚ`); all arithmetic in the
  translated code is exact, so finiteness of every numeric value is intrinsic
  to the embedding.
- JavaScript strings are embedded as lists of characters (`Str`).
- Every call to `Math.random()` or `Date.now()` is replaced by an explicit
  input: a named rational draw, an injected fresh identifier, or an injected
  timestamp, mirroring the source's draw sites one for one.
- Mutation of an object becomes returning an updated copy; callbacks that the
  source uses to report breeding and removal become explicit output
  components.
-/

/-- JavaScript strings are modelled as lists of characters. -/
abbrev Str : Type := List Char

/-- An RGB color. The source stores colors as hex strings and converts with
`hexToRgb` / `rgbToHex`, which round-trip exactly on the three channel
values of a well-formed color, so the embedding works with the channels
directly. -/
structure Rgb where
  r : ℕ
  g : ℕ
  b : ℕ
deriving DecidableEq

/-- The genome, mirroring the `GeneticTraits` interface of `Genetics.ts`:
physical traits, visual traits, body proportions and behavioral traits. -/
structure GeneticTraits where
  size : ℚ
  speed : ℚ
  stamina : ℚ
  bodyColor : Rgb
  accentColor : Rgb
  pattern : ℕ
  headSize : ℚ
  bodyLength : ℚ
  limbLength : ℚ
  aggression : ℚ
  curiosity : ℚ
  social : ℚ
deriving DecidableEq

/-- The `Math.random()` draws consumed by one `GeneticsManager.breedTraits`
call, one named field per draw site (nine numeric traits, up to two draws per
color blend, one draw for the pattern pick). -/
structure BreedRands where
  sizeR : ℚ
  speedR : ℚ
  staminaR : ℚ
  bodyColorR1 : ℚ
  bodyColorR2 : ℚ
  accentColorR1 : ℚ
  accentColorR2 : ℚ
  patternR : ℚ
  headSizeR : ℚ
  bodyLengthR : ℚ
  limbLengthR : ℚ
  aggressionR : ℚ
  curiosityR : ℚ
  socialR : ℚ
deriving DecidableEq

/-- Mirrors `GeneticsManager.inheritNumericTrait`: the parents' average plus
a mutation of `(Math.random() - 0.5) * mutationRate * 2`, floored at `0` by
`Math.max`. -/
def GeneticsManager.inheritNumericTrait (value1 value2 mutationRate rand : ℚ) : ℚ :=
  max 0 ((value1 + value2) / 2 + (rand - 1 / 2) * mutationRate * 2)

/-- Mirrors `GeneticsManager.blendColors`: with the first draw below `0.3`
one parent's color is returned verbatim (second draw picks which), otherwise
each channel is `Math.floor` of the channel average (natural-number division
is exactly the floor here). Stated over any linear ordered field so that the
same definition serves exact rational evaluation and real-valued measure
statements about the draws. -/
def GeneticsManager.blendColors {α : Type} [LinearOrderedField α]
    (rand1 rand2 : α) (color1 color2 : Rgb) : Rgb :=
  if rand1 < 3 / 10 then
    if rand2 < 1 / 2 then color1 else color2
  else
    { r := (color1.r + color2.r) / 2
      g := (color1.g + color2.g) / 2
      b := (color1.b + color2.b) / 2 }

/-- Mirrors `GeneticsManager.breedTraits`: numeric traits via
`inheritNumericTrait` (rate `0.1` for physical and proportion traits, `0.15`
for behavioral traits), colors via `blendColors`, pattern picked from one
parent with an even draw. -/
def GeneticsManager.breedTraits (parent1Traits parent2Traits : GeneticTraits)
    (d : BreedRands) : GeneticTraits :=
  { size := GeneticsManager.inheritNumericTrait parent1Traits.size parent2Traits.size (1 / 10) d.sizeR
    speed := GeneticsManager.inheritNumericTrait parent1Traits.speed parent2Traits.speed (1 / 10) d.speedR
    stamina := GeneticsManager.inheritNumericTrait parent1Traits.stamina parent2Traits.stamina (1 / 10) d.staminaR
    bodyColor := GeneticsManager.blendColors d.bodyColorR1 d.bodyColorR2 parent1Traits.bodyColor parent2Traits.bodyColor
    accentColor := GeneticsManager.blendColors d.accentColorR1 d.accentColorR2 parent1Traits.accentColor parent2Traits.accentColor
    pattern := if d.patternR < 1 / 2 then parent1Traits.pattern else parent2Traits.pattern
    headSize := GeneticsManager.inheritNumericTrait parent1Traits.headSize parent2Traits.headSize (1 / 10) d.headSizeR
    bodyLength := GeneticsManager.inheritNumericTrait parent1Traits.bodyLength parent2Traits.bodyLength (1 / 10) d.bodyLengthR
    limbLength := GeneticsManager.inheritNumericTrait parent1Traits.limbLength parent2Traits.limbLength (1 / 10) d.limbLengthR
    aggression := GeneticsManager.inheritNumericTrait parent1Traits.aggression parent2Traits.aggression (15 / 100) d.aggressionR
    curiosity := GeneticsManager.inheritNumericTrait parent1Traits.curiosity parent2Traits.curiosity (15 / 100) d.curiosityR
    social := GeneticsManager.inheritNumericTrait parent1Traits.social parent2Traits.social (15 / 100) d.socialR }

/-- A living creature, mirroring the persistent fields of the `Creature`
class (`id`, `name`, `traits`, `generation`, `parentIds`, `birthTime`,
`energy`) together with the private rest timer `idleTime`. The purely
presentational fields (`position`, `velocity`, `mesh`, `targetPosition`) and
the mesh construction are rendering collaborators and are not part of the
embedded state. -/
structure Creature where
  id : Str
  name : Str
  traits : GeneticTraits
  generation : ℕ
  parentIds : Option (Str × Str)
  birthTime : ℚ
  energy : ℚ
  idleTime : ℚ
deriving DecidableEq

/-- Mirrors the `CreatureData` interface: the flat record produced by
`Creature.toData` and consumed by the constructor, save/load and the pool
exchange. -/
structure CreatureData where
  id : Str
  name : Str
  traits : GeneticTraits
  generation : ℕ
  parentIds : Option (Str × Str)
  birthTime : ℚ
  energy : ℚ
deriving DecidableEq

/-- Mirrors `Creature.toData`. -/
def Creature.toData (c : Creature) : CreatureData :=
  { id := c.id, name := c.name, traits := c.traits, generation := c.generation
    parentIds := c.parentIds, birthTime := c.birthTime, energy := c.energy }

/-- Mirrors `Partial<CreatureData>`, the constructor argument: every field
may be absent. An absent `parentIds` and a `null` one coincide (both are
falsy), so that field stays a single `Option`. -/
structure CreatureInit where
  id : Option Str := none
  name : Option Str := none
  traits : Option GeneticTraits := none
  generation : Option ℕ := none
  parentIds : Option (Str × Str) := none
  birthTime : Option ℚ := none
  energy : Option ℚ := none
deriving DecidableEq

/-- The constructor's fallback sources: `generateId()`, `generateName()`,
`GeneticsManager.generateRandomTraits()` and `Date.now()` all draw on the
clock or on `Math.random()`, so their outcomes are injected. -/
structure CreatureDefaults where
  freshId : Str
  freshName : Str
  freshTraits : GeneticTraits
  now : ℚ
deriving DecidableEq

/-- JavaScript `x || dflt` for a possibly-absent number: absent, or present
and equal to `0` (falsy), falls back to the default. -/
def jsOrNum (x : Option ℚ) (dflt : ℚ) : ℚ :=
  match x with
  | none => dflt
  | some v => if v = 0 then dflt else v

/-- JavaScript `x || dflt` for a possibly-absent natural number. -/
def jsOrNat (x : Option ℕ) (dflt : ℕ) : ℕ :=
  match x with
  | none => dflt
  | some v => if v = 0 then dflt else v

/-- JavaScript `x || dflt` for a possibly-absent string: absent, or present
and empty (falsy), falls back to the default. -/
def jsOrStr (x : Option Str) (dflt : Str) : Str :=
  match x with
  | none => dflt
  | some s => if s = [] then dflt else s

/-- Mirrors `new Creature(data)`: each field comes from the record when the
record supplies a truthy value and from the fallback source otherwise; in
particular `energy` falls back to the full `stamina` of the chosen traits,
and a supplied nonzero `energy` is taken verbatim, without any clamping. -/
def Creature.construct (data : CreatureInit) (dfl : CreatureDefaults) : Creature :=
  let traits := data.traits.getD dfl.freshTraits
  { id := jsOrStr data.id dfl.freshId
    name := jsOrStr data.name dfl.freshName
    traits := traits
    generation := jsOrNat data.generation 1
    parentIds := data.parentIds
    birthTime := jsOrNum data.birthTime dfl.now
    energy := jsOrNum data.energy traits.stamina
    idleTime := 0 }

/-- Mirrors the energy/rest part of `Creature.update`: energy decays by
`deltaTime * 0.1` floored at `0`; below `30%` of stamina the creature idles,
and once `idleTime` exceeds `2` it regenerates by `deltaTime * 0.5` capped at
`stamina`; otherwise the idle timer resets. Movement and mesh updates are
rendering-only and omitted. -/
def Creature.update (c : Creature) (deltaTime : ℚ) : Creature :=
  let energy1 := max 0 (c.energy - deltaTime * (1 / 10))
  if energy1 < 3 / 10 * c.traits.stamina then
    let idle := c.idleTime + deltaTime
    if idle > 2 then
      { c with energy := min c.traits.stamina (energy1 + deltaTime * (1 / 2)), idleTime := idle }
    else
      { c with energy := energy1, idleTime := idle }
  else
    { c with energy := energy1, idleTime := 0 }

/-- Mirrors the feeding effect applied by `FoodManager.checkFeeding` to a
creature within reach of a food item: energy increases by the food's
nutrition value, capped at stamina. The spatial scan that decides which
creature eats which food is geometry over render positions and is outside
the embedded state. -/
def FoodManager.eat (c : Creature) (nutritionValue : ℚ) : Creature :=
  { c with energy := min c.traits.stamina (c.energy + nutritionValue) }

/-- Mirrors `BreedingManager.generateOffspringName`: the first half of the
first name (`substring(0, mid)` is `take`) and the second half of the second
name (`substring(mid)` is `drop`), with integer-floor midpoints. -/
def BreedingManager.generateOffspringName (name1 name2 : Str) : Str :=
  name1.take (name1.length / 2) ++ name2.drop (name2.length / 2)

/-- Mirrors `parentIds && parentIds.includes(id)`: a `null` lineage includes
nothing, a recorded pair includes its two components. -/
def includesParentId (parentIds : Option (Str × Str)) (i : Str) : Bool :=
  match parentIds with
  | some p => decide (p.1 = i) || decide (p.2 = i)
  | none => false

/-- Mirrors `BreedingManager.canBreed`, with the checks in source order:
distinct ids, the energy floor for each parent, then the direct
parent/offspring exclusion through `parentIds`. -/
def BreedingManager.canBreed (creature1 creature2 : Creature) : Bool :=
  if creature1.id = creature2.id then
    false
  else if creature1.energy < creature1.traits.stamina * (1 / 2) ∨
      creature2.energy < creature2.traits.stamina * (1 / 2) then
    false
  else if includesParentId creature1.parentIds creature2.id then
    false
  else if includesParentId creature2.parentIds creature1.id then
    false
  else
    true

/-- Mirrors `BreedingManager.breed`. The only guard in the source is the
energy check, whose failure throws (`Except.error`); on success the offspring
is built through the `Creature` constructor and both parents are returned
with their energy multiplied by `0.7`. The offspring's random spatial
placement is rendering-only and omitted; the trait draws and the constructor
fallback sources are explicit inputs. -/
def BreedingManager.breed (parent1 parent2 : Creature) (d : BreedRands)
    (dfl : CreatureDefaults) : Except Unit (Creature × Creature × Creature) :=
  if parent1.energy < parent1.traits.stamina * (1 / 2) ∨
      parent2.energy < parent2.traits.stamina * (1 / 2) then
    .error ()
  else
    let offspringTraits := GeneticsManager.breedTraits parent1.traits parent2.traits d
    let offspringName := BreedingManager.generateOffspringName parent1.name parent2.name
    let offspringGeneration := max parent1.generation parent2.generation + 1
    let offspring := Creature.construct
      { id := none
        name := some offspringName
        traits := some offspringTraits
        generation := some offspringGeneration
        parentIds := some (parent1.id, parent2.id)
        birthTime := some dfl.now
        energy := none } dfl
    .ok (offspring,
      { parent1 with energy := parent1.energy * (7 / 10) },
      { parent2 with energy := parent2.energy * (7 / 10) })

/-- Mirrors the `SimulationConfig` interface of `EvolutionSimulator.ts`. -/
structure SimulationConfig where
  enabled : Bool
  speed : ℚ
  maxPopulation : ℕ
  targetPopulation : ℕ
  autoBreed : Bool
  naturalSelection : Bool
deriving DecidableEq

/-- Mirrors `Partial<SimulationConfig>`, the argument of `setConfig`. -/
structure SimulationConfigPatch where
  enabled : Option Bool := none
  speed : Option ℚ := none
  maxPopulation : Option ℕ := none
  targetPopulation : Option ℕ := none
  autoBreed : Option Bool := none
  naturalSelection : Option Bool := none
deriving DecidableEq

/-- Mirrors the spread `{ ...this.config, ...config }`: a field present in
the patch replaces the current one. -/
def SimulationConfig.merge (c : SimulationConfig) (p : SimulationConfigPatch) :
    SimulationConfig :=
  { enabled := p.enabled.getD c.enabled
    speed := p.speed.getD c.speed
    maxPopulation := p.maxPopulation.getD c.maxPopulation
    targetPopulation := p.targetPopulation.getD c.targetPopulation
    autoBreed := p.autoBreed.getD c.autoBreed
    naturalSelection := p.naturalSelection.getD c.naturalSelection }

/-- The mutable state of the `EvolutionSimulator` class: its configuration,
the wall-clock timestamp of the last breeding attempt, and the lifetime
generation counter. -/
structure EvolutionSimulator where
  config : SimulationConfig
  lastBreedTime : ℚ
  generationCount : ℕ
deriving DecidableEq

/-- Mirrors `EvolutionSimulator.setConfig`: only the configuration changes;
`lastBreedTime` and `generationCount` are untouched. -/
def EvolutionSimulator.setConfig (sim : EvolutionSimulator)
    (p : SimulationConfigPatch) : EvolutionSimulator :=
  { sim with config := sim.config.merge p }

/-- Mirrors `EvolutionSimulator.calculateFitness`: the unweighted average of
size, speed, stamina and the energy-to-stamina ratio. -/
def EvolutionSimulator.calculateFitness (creature : Creature) : ℚ :=
  (creature.traits.size + creature.traits.speed + creature.traits.stamina +
    creature.energy / creature.traits.stamina) / 4

/-- The comparison used by the fitness sort in `applyNaturalSelection`
(ascending fitness, mirroring the comparator `fitnessA - fitnessB`). -/
def EvolutionSimulator.fitnessLe (a b : Creature) : Bool :=
  decide (EvolutionSimulator.calculateFitness a ≤ EvolutionSimulator.calculateFitness b)

/-- Mirrors `EvolutionSimulator.applyNaturalSelection`: sort ascending by
fitness and remove the first `Math.min(5, length - targetPopulation)`
creatures. The removal count uses natural-number subtraction, which agrees
with the source because a negative JavaScript count runs the removal loop
zero times. The returned list is the creatures handed to `onRemove`. -/
def EvolutionSimulator.applyNaturalSelection (creatures : List Creature)
    (config : SimulationConfig) : List Creature :=
  let sorted := creatures.mergeSort EvolutionSimulator.fitnessLe
  sorted.take (min 5 (creatures.length - config.targetPopulation))

/-- The adjacent-pair scan of `tryAutoBreed`: the first adjacent pair of the
shuffled eligible list that satisfies `canBreed`. -/
def EvolutionSimulator.firstBreedablePair : List Creature → Option (Creature × Creature)
  | c1 :: c2 :: rest =>
    if BreedingManager.canBreed c1 c2 then some (c1, c2)
    else EvolutionSimulator.firstBreedablePair (c2 :: rest)
  | _ => none

/-- Mirrors `EvolutionSimulator.tryAutoBreed`: filter the creatures whose
energy strictly exceeds half their stamina, shuffle them (the
`sort(() => Math.random() - 0.5)` shuffle is an injected permutation), and
report the first breedable adjacent pair, if any, as the pair handed to
`onBreed`. -/
def EvolutionSimulator.tryAutoBreed (creatures : List Creature)
    (shuffle : List Creature → List Creature) : Option (Creature × Creature) :=
  let eligible := creatures.filter fun c =>
    decide ((1 / 2 : ℚ) * c.traits.stamina < c.energy)
  if eligible.length < 2 then none
  else EvolutionSimulator.firstBreedablePair (shuffle eligible)

/-- Mirrors `EvolutionSimulator.update`. The result bundles the new simulator
state, the pair handed to `onBreed` (if any), and the creatures handed to
`onRemove`. `now` is the `Date.now()` reading of this tick. Both autonomous
breeding and natural selection sit behind the early return
`if (!enabled || !autoBreed) return` and behind the tick-interval check. -/
def EvolutionSimulator.update (sim : EvolutionSimulator) (now : ℚ)
    (creatures : List Creature) (shuffle : List Creature → List Creature) :
    EvolutionSimulator × Option (Creature × Creature) × List Creature :=
  if sim.config.enabled = false ∨ sim.config.autoBreed = false then
    (sim, none, [])
  else
    let breedInterval := 60 / sim.config.speed * 1000
    if now - sim.lastBreedTime > breedInterval then
      let sim1 := { sim with lastBreedTime := now }
      let pair :=
        if creatures.length < sim.config.targetPopulation then
          EvolutionSimulator.tryAutoBreed creatures shuffle
        else none
      let sim2 :=
        match pair with
        | some _ => { sim1 with generationCount := sim1.generationCount + 1 }
        | none => sim1
      let removed :=
        if sim.config.naturalSelection = true ∧
            creatures.length > sim.config.maxPopulation then
          EvolutionSimulator.applyNaturalSelection creatures sim.config
        else []
      (sim2, pair, removed)
    else
      (sim, none, [])

/-- Mirrors `MultiplayerPoolManager.mergeCreatures`'s founder-reconstruction
loop over the first `maxImport` imported records: each record gets a fresh
id (the source builds it from `Date.now()` and `Math.random()`; here the
injected `freshIds` supplies the id for the record at each loop index),
generation `1`, and `parentIds` cleared to `null`. -/
def MultiplayerPoolManager.founderize (freshIds : ℕ → Str) :
    ℕ → List CreatureData → List CreatureData
  | _, [] => []
  | i, c :: rest =>
    { c with id := freshIds i, generation := 1, parentIds := none } ::
      MultiplayerPoolManager.founderize freshIds (i + 1) rest

/-- Mirrors `MultiplayerPoolManager.mergeCreatures`: take at most
`maxImport` records from the imported pool, reconstruct each as a founder,
and append them to the existing records. -/
def MultiplayerPoolManager.mergeCreatures (existing imported : List CreatureData)
    (maxImport : ℕ) (freshIds : ℕ → Str) : List CreatureData :=
  existing ++ MultiplayerPoolManager.founderize freshIds 0 (imported.take maxImport)

/-- A JSON value, for the persisted save state: `JSON.parse` output is one
of these. -/
inductive Json where
  | null : Json
  | bool (b : Bool) : Json
  | num (q : ℚ) : Json
  | str (s : Str) : Json
  | arr (elems : List Json) : Json
  | obj (fields : List (Str × Json)) : Json

/-- Property lookup on a parsed JSON value: `undefined` (`none`) on a
missing key or on a non-object. -/
def Json.getField : Json → Str → Option Json
  | .obj fields, key => (fields.find? fun f => decide (f.1 = key)).map fun f => f.2
  | _, _ => none

/-- The `creatures` property name of the persisted `GameData`. -/
def creaturesKey : Str := ['c', 'r', 'e', 'a', 't', 'u', 'r', 'e', 's']

/-- Mirrors `SaveLoadManager.loadGame`. The stored state abstracts
`localStorage` plus `JSON.parse`: `none` is a missing save, `some (.error _)`
a save that fails to parse (the catch returns `null`), and `some (.ok j)` a
parsed value. Inside the `try`, the success log dereferences
`gameData.creatures.length`, which throws — and is caught, returning
`null` — exactly when the `creatures` property is missing or `null`; every
other value (numbers, strings, booleans, objects, arrays) tolerates the
`.length` access. No structural validation of the creature records happens
here. -/
def SaveLoadManager.loadGame (stored : Option (Except Unit Json)) : Option Json :=
  match stored with
  | none => none
  | some (.error _) => none
  | some (.ok j) =>
    match j.getField creaturesKey with
    | none => none
    | some .null => none
    | some _ => some j

/-- The observable outcome of `Game.loadGame`: a completed load, an early
`return false` with the population untouched, or an uncaught exception
thrown mid-load. -/
inductive LoadOutcome where
  | ok : LoadOutcome
  | noSave : LoadOutcome
  | crashed : LoadOutcome
deriving DecidableEq

/-- Mirrors `Game.loadGame`. When `SaveLoadManager.loadGame` returns `null`
the method returns early and the population is untouched. Otherwise the
existing creatures are cleared first and only then does
`gameData.creatures.forEach(...)` run: on an array the population becomes
the reconstructed records, and on any non-array value the `forEach` call
throws an uncaught `TypeError` with the population already cleared. The
per-record `new Creature(data)` reconstruction draws fresh ids, names and
traits from the clock and the random source and is injected as
`reconstruct`; its details are irrelevant to the load-failure contract. -/
def Game.loadGame (reconstruct : Json → Creature) (population : List Creature)
    (stored : Option (Except Unit Json)) : List Creature × LoadOutcome :=
  match SaveLoadManager.loadGame stored with
  | none => (population, .noSave)
  | some j =>
    match j.getField creaturesKey with
    | some (.arr records) => (records.map reconstruct, .ok)
    | _ => ([], .crashed)

/-! Concrete fixtures used by witnesses and counterexamples. -/

/-- A baseline genome with unit physical traits. -/
def tBase : GeneticTraits :=
  { size := 1, speed := 1, stamina := 1
    bodyColor := { r := 255, g := 0, b := 0 }
    accentColor := { r := 0, g := 0, b := 255 }
    pattern := 0, headSize := 1, bodyLength := 1, limbLength := 1
    aggression := 0, curiosity := 0, social := 0 }

/-- A draw record with every `Math.random()` outcome equal to `1/2`. -/
def rHalf : BreedRands :=
  { sizeR := 1 / 2, speedR := 1 / 2, staminaR := 1 / 2
    bodyColorR1 := 1 / 2, bodyColorR2 := 1 / 2
    accentColorR1 := 1 / 2, accentColorR2 := 1 / 2
    patternR := 1 / 2
    headSizeR := 1 / 2, bodyLengthR := 1 / 2, limbLengthR := 1 / 2
    aggressionR := 1 / 2, curiosityR := 1 / 2, socialR := 1 / 2 }

/-- Concrete constructor fallback sources. -/
def dflBase : CreatureDefaults :=
  { freshId := ['f', 'r', 'e', 's', 'h'], freshName := ['F', 'r', 'e']
    freshTraits := tBase, now := 5 }

/-- A founder at full energy. -/
def cA : Creature :=
  { id := ['a'], name := ['A', 'd', 'a', 'm'], traits := tBase, generation := 1
    parentIds := none, birthTime := 0, energy := 1, idleTime := 0 }

/-- A second founder at full energy. -/
def cB : Creature :=
  { id := ['b'], name := ['B', 'e', 't', 'h'], traits := tBase, generation := 1
    parentIds := none, birthTime := 0, energy := 1, idleTime := 0 }

/-- A founder with no energy. -/
def cTired : Creature :=
  { id := ['t'], name := ['T', 'o', 'm'], traits := tBase, generation := 1
    parentIds := none, birthTime := 0, energy := 0, idleTime := 0 }

/-! C1 -/

/-- C1 counterexample: the pair `(cA, cA)` has `canBreed = false` (it is
self-breeding) and both creatures are at full energy, yet `breed` does not
fail — it returns an offspring. -/
theorem breed_accepts_ineligible_self_pair :
    BreedingManager.canBreed cA cA = false ∧
      (BreedingManager.breed cA cA rHalf dflBase).isOk = true := by
  constructor
  · simp [BreedingManager.canBreed]
  · simp only [BreedingManager.breed, cA, tBase]
    norm_num [Except.isOk, Except.toBool]

/-- C1 (amended): `breed` refuses — with a breeding-failure signal — exactly
the pairs in which some parent's energy is below half its stamina; every
`canBreed`-eligible pair passes, but so do the `canBreed`-ineligible pairs
(self-breeding, direct parent/offspring) that satisfy the energy floor. -/
theorem breed_refuses_exactly_energy_deficiency (p1 p2 : Creature)
    (d : BreedRands) (dfl : CreatureDefaults) :
    ((BreedingManager.breed p1 p2 d dfl).isOk = false ↔
      (p1.energy < p1.traits.stamina * (1 / 2) ∨
        p2.energy < p2.traits.stamina * (1 / 2))) ∧
    (BreedingManager.canBreed p1 p2 = true →
      (BreedingManager.breed p1 p2 d dfl).isOk = true) := by
  have hiff : (BreedingManager.breed p1 p2 d dfl).isOk = false ↔
      (p1.energy < p1.traits.stamina * (1 / 2) ∨
        p2.energy < p2.traits.stamina * (1 / 2)) := by
    by_cases h : p1.energy < p1.traits.stamina * (1 / 2) ∨
        p2.energy < p2.traits.stamina * (1 / 2)
    · have hb : BreedingManager.breed p1 p2 d dfl = .error () := by
        rw [BreedingManager.breed, if_pos h]
      rw [hb]
      exact iff_of_true rfl h
    · have hb : BreedingManager.breed p1 p2 d dfl =
          .ok (Creature.construct
            { id := none
              name := some (BreedingManager.generateOffspringName p1.name p2.name)
              traits := some (GeneticsManager.breedTraits p1.traits p2.traits d)
              generation := some (max p1.generation p2.generation + 1)
              parentIds := some (p1.id, p2.id)
              birthTime := some dfl.now
              energy := none } dfl,
            { p1 with energy := p1.energy * (7 / 10) },
            { p2 with energy := p2.energy * (7 / 10) }) := by
        rw [BreedingManager.breed, if_neg h]
      rw [hb]
      exact iff_of_false (by simp [Except.isOk, Except.toBool]) h
  refine ⟨hiff, fun hcan => ?_⟩
  by_cases h : p1.energy < p1.traits.stamina * (1 / 2) ∨
      p2.energy < p2.traits.stamina * (1 / 2)
  · exfalso
    by_cases hid : p1.id = p2.id
    · rw [BreedingManager.canBreed, if_pos hid] at hcan
      exact Bool.false_ne_true hcan
    · rw [BreedingManager.canBreed, if_neg hid, if_pos h] at hcan
      exact Bool.false_ne_true hcan
  · cases hok : (BreedingManager.breed p1 p2 d dfl).isOk
    · exact absurd (hiff.mp hok) h
    · rfl

/-- C1 witness: a pair with a zero-energy parent is refused. -/
theorem breed_refuses_exactly_energy_deficiency_witness :
    (BreedingManager.breed cTired cB rHalf dflBase).isOk = false :=
  (breed_refuses_exactly_energy_deficiency cTired cB rHalf dflBase).1.mpr
    (Or.inl (by norm_num [cTired, tBase]))

/-! C2 -/

/-- Dropping half of a nonempty name leaves a nonempty tail, so the
offspring name computed by `generateOffspringName` is never the empty
(falsy) string and survives the constructor's `data.name || generateName()`
fallback. -/
theorem generateOffspringName_ne_nil (name1 name2 : Str) (h : name2 ≠ []) :
    BreedingManager.generateOffspringName name1 name2 ≠ [] := by
  unfold BreedingManager.generateOffspringName
  intro habs
  rcases List.append_eq_nil.mp habs with ⟨-, hdrop⟩
  have hlen : name2.length ≤ name2.length / 2 := List.drop_eq_nil_iff.mp hdrop
  have hpos : 0 < name2.length := List.length_pos.mpr h
  exact absurd (lt_of_le_of_lt hlen (Nat.div_lt_self hpos one_lt_two))
    (lt_irrefl name2.length)

/-- C2 (confirmed): whenever `breed` succeeds — the energy floor holds for
both distinct parents — the returned parents carry exactly `70%` of their
previous energy, and the offspring has generation
`max(parent generations) + 1`, lineage `(parent1.id, parent2.id)`, and the
deterministic blended name (first floor-half of the first parent's name,
second floor-half of the second parent's). The nonempty-name hypothesis
reflects the `Creature` class invariant: every constructed creature has a
nonempty name, because the constructor replaces a falsy name. -/
theorem breed_success_effects (p1 p2 : Creature) (d : BreedRands)
    (dfl : CreatureDefaults)
    (h1 : p1.traits.stamina * (1 / 2) ≤ p1.energy)
    (h2 : p2.traits.stamina * (1 / 2) ≤ p2.energy)
    (_hdistinct : p1.id ≠ p2.id) (hname : p2.name ≠ []) :
    ∃ off, BreedingManager.breed p1 p2 d dfl =
        .ok (off,
          { p1 with energy := p1.energy * (7 / 10) },
          { p2 with energy := p2.energy * (7 / 10) }) ∧
      off.generation = max p1.generation p2.generation + 1 ∧
      off.parentIds = some (p1.id, p2.id) ∧
      off.name = p1.name.take (p1.name.length / 2) ++
        p2.name.drop (p2.name.length / 2) := by
  have hcond : ¬(p1.energy < p1.traits.stamina * (1 / 2) ∨
      p2.energy < p2.traits.stamina * (1 / 2)) := by
    push_neg
    exact ⟨h1, h2⟩
  refine ⟨_, by rw [BreedingManager.breed, if_neg hcond], ?_, ?_, ?_⟩
  · simp [Creature.construct, jsOrNat]
  · simp [Creature.construct]
  · have hoff := generateOffspringName_ne_nil p1.name p2.name hname
    simp only [Creature.construct, jsOrStr, if_neg hoff]
    rfl

/-- C2 witness: breeding the two full-energy founders. -/
theorem breed_success_effects_witness :
    ∃ off, BreedingManager.breed cA cB rHalf dflBase =
        .ok (off,
          { cA with energy := cA.energy * (7 / 10) },
          { cB with energy := cB.energy * (7 / 10) }) ∧
      off.generation = max cA.generation cB.generation + 1 ∧
      off.parentIds = some (cA.id, cB.id) ∧
      off.name = cA.name.take (cA.name.length / 2) ++
        cB.name.drop (cB.name.length / 2) :=
  breed_success_effects cA cB rHalf dflBase (by norm_num [cA, tBase])
    (by norm_num [cB, tBase]) (by simp [cA, cB]) (by simp [cB])

/-! C3 -/

/-- All nine scalar numeric trait fields are nonnegative. -/
def GeneticTraits.NumericNonneg (t : GeneticTraits) : Prop :=
  0 ≤ t.size ∧ 0 ≤ t.speed ∧ 0 ≤ t.stamina ∧ 0 ≤ t.headSize ∧
    0 ≤ t.bodyLength ∧ 0 ≤ t.limbLength ∧ 0 ≤ t.aggression ∧
    0 ≤ t.curiosity ∧ 0 ≤ t.social

/-- All nine numeric-trait draws lie in the `Math.random()` range `[0, 1)`. -/
def BreedRands.NumericDrawsInUnit (d : BreedRands) : Prop :=
  d.sizeR ∈ Set.Ico (0 : ℚ) 1 ∧ d.speedR ∈ Set.Ico (0 : ℚ) 1 ∧
    d.staminaR ∈ Set.Ico (0 : ℚ) 1 ∧ d.headSizeR ∈ Set.Ico (0 : ℚ) 1 ∧
    d.bodyLengthR ∈ Set.Ico (0 : ℚ) 1 ∧ d.limbLengthR ∈ Set.Ico (0 : ℚ) 1 ∧
    d.aggressionR ∈ Set.Ico (0 : ℚ) 1 ∧ d.curiosityR ∈ Set.Ico (0 : ℚ) 1 ∧
    d.socialR ∈ Set.Ico (0 : ℚ) 1

/-- With a draw in `[0, 1)`, the inherited value is the parents' average
plus a mutation drawn from `[-rate, rate)`, floored at `0`. -/
theorem inheritNumericTrait_spec (v1 v2 rate r : ℚ) (hrate : 0 < rate)
    (hr : r ∈ Set.Ico (0 : ℚ) 1) :
    ∃ m ∈ Set.Ico (-rate) rate,
      GeneticsManager.inheritNumericTrait v1 v2 rate r =
        max 0 ((v1 + v2) / 2 + m) := by
  refine ⟨(r - 1 / 2) * rate * 2, ⟨?_, ?_⟩, rfl⟩
  · nlinarith [hr.1]
  · nlinarith [hr.2]

/-- The `Math.max(0, ...)` floor makes every inherited value nonnegative. -/
theorem inheritNumericTrait_nonneg (v1 v2 rate r : ℚ) :
    0 ≤ GeneticsManager.inheritNumericTrait v1 v2 rate r :=
  le_max_left 0 _

/-- C3 (confirmed): with nonnegative parent traits and draws in `[0, 1)`,
every scalar numeric trait of the bred genome equals
`max(0, (A + B) / 2 + m)` with the mutation `m` drawn from `±0.1` for
physical and proportion traits and `±0.15` for behavioral traits, and every
numeric field of the offspring genome is nonnegative (finiteness is
intrinsic to the exact rational embedding). -/
theorem breedTraits_inheritance (A B : GeneticTraits) (d : BreedRands)
    (_hA : A.NumericNonneg) (_hB : B.NumericNonneg)
    (hd : d.NumericDrawsInUnit) :
    (GeneticsManager.breedTraits A B d).NumericNonneg ∧
    (∃ m ∈ Set.Ico (-(1 / 10) : ℚ) (1 / 10),
      (GeneticsManager.breedTraits A B d).size = max 0 ((A.size + B.size) / 2 + m)) ∧
    (∃ m ∈ Set.Ico (-(1 / 10) : ℚ) (1 / 10),
      (GeneticsManager.breedTraits A B d).speed = max 0 ((A.speed + B.speed) / 2 + m)) ∧
    (∃ m ∈ Set.Ico (-(1 / 10) : ℚ) (1 / 10),
      (GeneticsManager.breedTraits A B d).stamina = max 0 ((A.stamina + B.stamina) / 2 + m)) ∧
    (∃ m ∈ Set.Ico (-(1 / 10) : ℚ) (1 / 10),
      (GeneticsManager.breedTraits A B d).headSize = max 0 ((A.headSize + B.headSize) / 2 + m)) ∧
    (∃ m ∈ Set.Ico (-(1 / 10) : ℚ) (1 / 10),
      (GeneticsManager.breedTraits A B d).bodyLength = max 0 ((A.bodyLength + B.bodyLength) / 2 + m)) ∧
    (∃ m ∈ Set.Ico (-(1 / 10) : ℚ) (1 / 10),
      (GeneticsManager.breedTraits A B d).limbLength = max 0 ((A.limbLength + B.limbLength) / 2 + m)) ∧
    (∃ m ∈ Set.Ico (-(15 / 100) : ℚ) (15 / 100),
      (GeneticsManager.breedTraits A B d).aggression = max 0 ((A.aggression + B.aggression) / 2 + m)) ∧
    (∃ m ∈ Set.Ico (-(15 / 100) : ℚ) (15 / 100),
      (GeneticsManager.breedTraits A B d).curiosity = max 0 ((A.curiosity + B.curiosity) / 2 + m)) ∧
    (∃ m ∈ Set.Ico (-(15 / 100) : ℚ) (15 / 100),
      (GeneticsManager.breedTraits A B d).social = max 0 ((A.social + B.social) / 2 + m)) := by
  obtain ⟨h1, h2, h3, h4, h5, h6, h7, h8, h9⟩ := hd
  refine ⟨⟨?_, ?_, ?_, ?_, ?_, ?_, ?_, ?_, ?_⟩, ?_, ?_, ?_, ?_, ?_, ?_, ?_, ?_, ?_⟩
  · exact inheritNumericTrait_nonneg A.size B.size (1 / 10) d.sizeR
  · exact inheritNumericTrait_nonneg A.speed B.speed (1 / 10) d.speedR
  · exact inheritNumericTrait_nonneg A.stamina B.stamina (1 / 10) d.staminaR
  · exact inheritNumericTrait_nonneg A.headSize B.headSize (1 / 10) d.headSizeR
  · exact inheritNumericTrait_nonneg A.bodyLength B.bodyLength (1 / 10) d.bodyLengthR
  · exact inheritNumericTrait_nonneg A.limbLength B.limbLength (1 / 10) d.limbLengthR
  · exact inheritNumericTrait_nonneg A.aggression B.aggression (15 / 100) d.aggressionR
  · exact inheritNumericTrait_nonneg A.curiosity B.curiosity (15 / 100) d.curiosityR
  · exact inheritNumericTrait_nonneg A.social B.social (15 / 100) d.socialR
  · exact inheritNumericTrait_spec A.size B.size (1 / 10) d.sizeR (by norm_num) h1
  · exact inheritNumericTrait_spec A.speed B.speed (1 / 10) d.speedR (by norm_num) h2
  · exact inheritNumericTrait_spec A.stamina B.stamina (1 / 10) d.staminaR (by norm_num) h3
  · exact inheritNumericTrait_spec A.headSize B.headSize (1 / 10) d.headSizeR (by norm_num) h4
  · exact inheritNumericTrait_spec A.bodyLength B.bodyLength (1 / 10) d.bodyLengthR (by norm_num) h5
  · exact inheritNumericTrait_spec A.limbLength B.limbLength (1 / 10) d.limbLengthR (by norm_num) h6
  · exact inheritNumericTrait_spec A.aggression B.aggression (15 / 100) d.aggressionR (by norm_num) h7
  · exact inheritNumericTrait_spec A.curiosity B.curiosity (15 / 100) d.curiosityR (by norm_num) h8
  · exact inheritNumericTrait_spec A.social B.social (15 / 100) d.socialR (by norm_num) h9

/-- C3 witness: breeding the baseline genome with itself under central
draws yields a genome with every numeric field nonnegative. -/
theorem breedTraits_inheritance_witness :
    tBase.NumericNonneg ∧ rHalf.NumericDrawsInUnit ∧
      (GeneticsManager.breedTraits tBase tBase rHalf).NumericNonneg := by
  have hA : tBase.NumericNonneg := by
    norm_num [GeneticTraits.NumericNonneg, tBase]
  have hd : rHalf.NumericDrawsInUnit := by
    norm_num [BreedRands.NumericDrawsInUnit, rHalf, Set.mem_Ico]
  exact ⟨hA, hd, (breedTraits_inheritance tBase tBase rHalf hA hA hd).1⟩

/-! C4 -/

/-- The red parent color of the testable color-blend property. -/
def redColor : Rgb := { r := 255, g := 0, b := 0 }

/-- The blue parent color of the testable color-blend property. -/
def blueColor : Rgb := { r := 0, g := 0, b := 255 }

/-- C4 (confirmed): `blendColors` takes the verbatim branch exactly on the
first-draw event of uniform probability `0.3` (Lebesgue measure `3/10` of
the `[0, 1)` draw range), picking each parent with equal probability `1/2`
on the second draw; on the complementary blend path every channel is the
integer-floor average of the parents' channels, and for parents
`(255,0,0)` and `(0,0,255)` the blend path always yields `(127, 0, 127)`. -/
theorem blendColors_spec :
    (∀ (r1 r2 : ℚ) (c1 c2 : Rgb), 3 / 10 ≤ r1 →
      GeneticsManager.blendColors r1 r2 c1 c2 =
        { r := (c1.r + c2.r) / 2, g := (c1.g + c2.g) / 2, b := (c1.b + c2.b) / 2 }) ∧
    (∀ (r1 r2 : ℚ) (c1 c2 : Rgb), r1 < 3 / 10 →
      GeneticsManager.blendColors r1 r2 c1 c2 = if r2 < 1 / 2 then c1 else c2) ∧
    (∀ r2 : ℝ, MeasureTheory.volume {r1 : ℝ | r1 ∈ Set.Ico (0 : ℝ) 1 ∧
        (GeneticsManager.blendColors r1 r2 redColor blueColor = redColor ∨
          GeneticsManager.blendColors r1 r2 redColor blueColor = blueColor)} =
      ENNReal.ofReal (3 / 10)) ∧
    (∀ r1 : ℝ, r1 < 3 / 10 →
      MeasureTheory.volume {r2 : ℝ | r2 ∈ Set.Ico (0 : ℝ) 1 ∧
          GeneticsManager.blendColors r1 r2 redColor blueColor = redColor} =
        ENNReal.ofReal (1 / 2) ∧
      MeasureTheory.volume {r2 : ℝ | r2 ∈ Set.Ico (0 : ℝ) 1 ∧
          GeneticsManager.blendColors r1 r2 redColor blueColor = blueColor} =
        ENNReal.ofReal (1 / 2)) ∧
    (∀ r1 r2 : ℚ, 3 / 10 ≤ r1 →
      GeneticsManager.blendColors r1 r2 redColor blueColor =
        { r := 127, g := 0, b := 127 }) := by
  have hblend : ∀ {α : Type} [inst : LinearOrderedField α] (r1 r2 : α)
      (c1 c2 : Rgb), 3 / 10 ≤ r1 →
      GeneticsManager.blendColors r1 r2 c1 c2 =
        { r := (c1.r + c2.r) / 2, g := (c1.g + c2.g) / 2, b := (c1.b + c2.b) / 2 } := by
    intro α inst r1 r2 c1 c2 h
    rw [GeneticsManager.blendColors, if_neg (not_lt.mpr h)]
  have hverbatim : ∀ {α : Type} [inst : LinearOrderedField α] (r1 r2 : α)
      (c1 c2 : Rgb), r1 < 3 / 10 →
      GeneticsManager.blendColors r1 r2 c1 c2 = if r2 < 1 / 2 then c1 else c2 := by
    intro α inst r1 r2 c1 c2 h
    rw [GeneticsManager.blendColors, if_pos h]
  refine ⟨fun r1 r2 c1 c2 h => hblend r1 r2 c1 c2 h,
    fun r1 r2 c1 c2 h => hverbatim r1 r2 c1 c2 h, ?_, ?_, ?_⟩
  · intro r2
    have hset : {r1 : ℝ | r1 ∈ Set.Ico (0 : ℝ) 1 ∧
        (GeneticsManager.blendColors r1 r2 redColor blueColor = redColor ∨
          GeneticsManager.blendColors r1 r2 redColor blueColor = blueColor)} =
        Set.Ico (0 : ℝ) (3 / 10) := by
      ext x
      simp only [Set.mem_setOf_eq, Set.mem_Ico]
      constructor
      · rintro ⟨⟨hx0, -⟩, hcol⟩
        refine ⟨hx0, ?_⟩
        by_contra hge
        rw [hblend x r2 redColor blueColor (not_lt.mp hge)] at hcol
        rcases hcol with h | h <;>
          simp [redColor, blueColor, Rgb.mk.injEq] at h
      · rintro ⟨hx0, hx3⟩
        refine ⟨⟨hx0, lt_trans hx3 (by norm_num)⟩, ?_⟩
        rw [hverbatim x r2 redColor blueColor hx3]
        by_cases hr2 : r2 < (1 / 2 : ℝ)
        · rw [if_pos hr2]
          exact Or.inl rfl
        · rw [if_neg hr2]
          exact Or.inr rfl
    rw [hset, Real.volume_Ico]
    norm_num
  · intro r1 hr1
    constructor
    · have hset : {r2 : ℝ | r2 ∈ Set.Ico (0 : ℝ) 1 ∧
          GeneticsManager.blendColors r1 r2 redColor blueColor = redColor} =
          Set.Ico (0 : ℝ) (1 / 2) := by
        ext x
        simp only [Set.mem_setOf_eq, Set.mem_Ico]
        constructor
        · rintro ⟨⟨hx0, -⟩, hcol⟩
          refine ⟨hx0, ?_⟩
          by_contra hge
          rw [hverbatim r1 x redColor blueColor hr1, if_neg hge] at hcol
          simp [redColor, blueColor, Rgb.mk.injEq] at hcol
        · rintro ⟨hx0, hxh⟩
          refine ⟨⟨hx0, lt_trans hxh (by norm_num)⟩, ?_⟩
          rw [hverbatim r1 x redColor blueColor hr1, if_pos hxh]
      rw [hset, Real.volume_Ico]
      norm_num
    · have hset : {r2 : ℝ | r2 ∈ Set.Ico (0 : ℝ) 1 ∧
          GeneticsManager.blendColors r1 r2 redColor blueColor = blueColor} =
          Set.Ico (1 / 2 : ℝ) 1 := by
        ext x
        simp only [Set.mem_setOf_eq, Set.mem_Ico]
        constructor
        · rintro ⟨⟨-, hx1⟩, hcol⟩
          refine ⟨?_, hx1⟩
          by_contra hlt
          rw [hverbatim r1 x redColor blueColor hr1, if_pos (not_le.mp hlt)] at hcol
          simp [redColor, blueColor, Rgb.mk.injEq] at hcol
        · rintro ⟨hxh, hx1⟩
          refine ⟨⟨le_trans (by norm_num) hxh, hx1⟩, ?_⟩
          rw [hverbatim r1 x redColor blueColor hr1, if_neg (not_lt.mpr hxh)]
      rw [hset, Real.volume_Ico]
      norm_num
  · intro r1 r2 h
    rw [hblend r1 r2 redColor blueColor h]
    simp [redColor, blueColor]

/-- C4 witness: a blend-path draw on the red and blue parents yields the
floor-averaged purple. -/
theorem blendColors_spec_witness :
    GeneticsManager.blendColors (1 / 2 : ℚ) 0 redColor blueColor =
      { r := 127, g := 0, b := 127 } :=
  blendColors_spec.2.2.2.2 (1 / 2) 0 (by norm_num)

/-! C5 -/

/-- Length of the founder-reconstruction loop output. -/
theorem founderize_length (freshIds : ℕ → Str) :
    ∀ (i : ℕ) (l : List CreatureData),
      (MultiplayerPoolManager.founderize freshIds i l).length = l.length := by
  intro i l
  induction l generalizing i with
  | nil => simp [MultiplayerPoolManager.founderize]
  | cons c rest ih => simp [MultiplayerPoolManager.founderize, ih]

/-- Pointwise description of the founder-reconstruction loop: the record at
position `j` is the source record at position `j` with a fresh id,
generation `1` and cleared lineage. -/
theorem founderize_getElem? (freshIds : ℕ → Str) :
    ∀ (l : List CreatureData) (i j : ℕ),
      (MultiplayerPoolManager.founderize freshIds i l)[j]? =
        l[j]?.map fun c =>
          { c with id := freshIds (i + j), generation := 1, parentIds := none } := by
  intro l
  induction l with
  | nil => intro i j; simp [MultiplayerPoolManager.founderize]
  | cons c rest ih =>
    intro i j
    cases j with
    | zero => simp [MultiplayerPoolManager.founderize]
    | succ j =>
      have harg : i + 1 + j = i + (j + 1) := by omega
      simp only [MultiplayerPoolManager.founderize, List.getElem?_cons_succ,
        ih (i + 1) j, harg]

/-- Every record produced by the founder-reconstruction loop is a founder. -/
theorem founderize_mem (freshIds : ℕ → Str) :
    ∀ (i : ℕ) (l : List CreatureData),
      ∀ c ∈ MultiplayerPoolManager.founderize freshIds i l,
        c.parentIds = none ∧ c.generation = 1 := by
  intro i l
  induction l generalizing i with
  | nil => intro c hc; simp [MultiplayerPoolManager.founderize] at hc
  | cons hd rest ih =>
    intro c hc
    rcases List.mem_cons.mp hc with hhd | htl
    · subst hhd; exact ⟨rfl, rfl⟩
    · exact ih (i + 1) c htl

/-- C5 (confirmed): `mergeCreatures` leaves the existing records unchanged
as the prefix of its result, and reconstructs each of the (at most
`maxImport`) imported records as a founder: `parentIds` cleared to `null`,
generation reset to `1`, and a fresh id assigned from the injected id
source. -/
theorem mergeCreatures_founders (existing imported : List CreatureData)
    (maxImport : ℕ) (freshIds : ℕ → Str) :
    (MultiplayerPoolManager.mergeCreatures existing imported maxImport freshIds).take
        existing.length = existing ∧
    ((MultiplayerPoolManager.mergeCreatures existing imported maxImport freshIds).drop
        existing.length).length = min maxImport imported.length ∧
    (∀ c ∈ (MultiplayerPoolManager.mergeCreatures existing imported maxImport
        freshIds).drop existing.length, c.parentIds = none ∧ c.generation = 1) ∧
    (∀ i, i < ((MultiplayerPoolManager.mergeCreatures existing imported maxImport
        freshIds).drop existing.length).length →
      ∃ src, src ∈ imported ∧
        ((MultiplayerPoolManager.mergeCreatures existing imported maxImport
            freshIds).drop existing.length)[i]? =
          some { src with id := freshIds i, generation := 1, parentIds := none }) := by
  have hdrop : (MultiplayerPoolManager.mergeCreatures existing imported maxImport
      freshIds).drop existing.length =
      MultiplayerPoolManager.founderize freshIds 0 (imported.take maxImport) := by
    unfold MultiplayerPoolManager.mergeCreatures
    exact List.drop_left existing _
  refine ⟨?_, ?_, ?_, ?_⟩
  · unfold MultiplayerPoolManager.mergeCreatures
    exact List.take_left existing _
  · rw [hdrop, founderize_length, List.length_take]
  · rw [hdrop]
    exact founderize_mem freshIds 0 (imported.take maxImport)
  · intro i hi
    rw [hdrop] at hi ⊢
    rw [founderize_length, List.length_take] at hi
    have hi2 : i < (imported.take maxImport).length := by
      rw [List.length_take]
      exact hi
    refine ⟨(imported.take maxImport)[i],
      (List.take_sublist maxImport imported).mem (List.getElem_mem hi2), ?_⟩
    rw [founderize_getElem? freshIds (imported.take maxImport) 0 i,
      List.getElem?_eq_getElem hi2]
    simp

/-- The imported record of the C5 witness: recorded lineage, generation 7. -/
def recImported : CreatureData :=
  { id := ['x'], name := ['I', 'm', 'p'], traits := tBase, generation := 7
    parentIds := some (['p'], ['q']), birthTime := 0, energy := 1 }

/-- The fresh-id source of the C5 witness. -/
def freshNew : ℕ → Str := fun _ => ['n', 'e', 'w']

/-- C5 witness: importing one record with recorded lineage and generation
`7` next to one existing record reconstructs it at position `0` past the
existing prefix as a founder with the fresh id. -/
theorem mergeCreatures_founders_witness :
    ∃ src, src ∈ [recImported] ∧
      ((MultiplayerPoolManager.mergeCreatures [cA.toData] [recImported] 10
          freshNew).drop ([cA.toData] : List CreatureData).length)[0]? =
        some { src with id := freshNew 0, generation := 1, parentIds := none } :=
  (mergeCreatures_founders [cA.toData] [recImported] 10 freshNew).2.2.2 0
    (by simp [MultiplayerPoolManager.mergeCreatures,
      MultiplayerPoolManager.founderize])

/-! C6 -/

/-- A persisted save state that parses as JSON but fails structural
validation of the creature records: its `creatures` property is the number
`42` instead of an array of records. -/
def jBad : Json := .obj [(creaturesKey, .num 42)]

/-- C6 counterexample: with one creature in memory and a parsable save
state whose `creatures` property is not an array, the load operation clears
the population and then crashes on `forEach`, so the in-memory population
is not left as it was — it is lost. -/
theorem loadGame_overwrites_on_malformed_save :
    Game.loadGame (fun _ => cA) [cB] (some (.ok jBad)) = ([], .crashed) ∧
      ([] : List Creature) ≠ [cB] := by
  constructor
  · simp [Game.loadGame, SaveLoadManager.loadGame, Json.getField, jBad]
  · simp

/-- C6 (amended): the load operation fails and leaves the in-memory
population untouched when the save is absent, when it fails to parse, and
when its `creatures` property is missing or `null` (the success log inside
the `try` throws on the `.length` access and is caught); but the creature
records are never structurally validated — a parsable save whose
`creatures` value is a number or a string clears the population before
crashing, losing the previous population, and an array is loaded
wholesale, each element reconstructed without validation. -/
theorem loadGame_failure_behavior (reconstruct : Json → Creature)
    (population : List Creature) :
    (Game.loadGame reconstruct population none = (population, .noSave)) ∧
    (∀ e : Unit, Game.loadGame reconstruct population (some (.error e)) =
      (population, .noSave)) ∧
    (∀ j : Json, j.getField creaturesKey = none →
      Game.loadGame reconstruct population (some (.ok j)) = (population, .noSave)) ∧
    (∀ j : Json, j.getField creaturesKey = some .null →
      Game.loadGame reconstruct population (some (.ok j)) = (population, .noSave)) ∧
    (∀ (j : Json) (q : ℚ), j.getField creaturesKey = some (.num q) →
      Game.loadGame reconstruct population (some (.ok j)) = ([], .crashed)) ∧
    (∀ (j : Json) (s : Str), j.getField creaturesKey = some (.str s) →
      Game.loadGame reconstruct population (some (.ok j)) = ([], .crashed)) ∧
    (∀ (j : Json) (records : List Json),
      j.getField creaturesKey = some (.arr records) →
      Game.loadGame reconstruct population (some (.ok j)) =
        (records.map reconstruct, .ok)) := by
  refine ⟨?_, ?_, ?_, ?_, ?_, ?_, ?_⟩
  · simp [Game.loadGame, SaveLoadManager.loadGame]
  · intro e
    simp [Game.loadGame, SaveLoadManager.loadGame]
  · intro j h
    simp [Game.loadGame, SaveLoadManager.loadGame, h]
  · intro j h
    simp [Game.loadGame, SaveLoadManager.loadGame, h]
  · intro j q h
    simp [Game.loadGame, SaveLoadManager.loadGame, h]
  · intro j s h
    simp [Game.loadGame, SaveLoadManager.loadGame, h]
  · intro j records h
    simp [Game.loadGame, SaveLoadManager.loadGame, h]

/-- C6 witness: a save that fails to parse leaves the single-creature
population untouched. -/
theorem loadGame_failure_behavior_witness :
    Game.loadGame (fun _ => cA) [cB] (some (.error ())) = ([cB], .noSave) :=
  (loadGame_failure_behavior (fun _ => cA) [cB]).2.1 ()

/-! C7 -/

/-- A controller state that is enabled with natural selection on but
auto-breed off, over a tiny ceiling so that any two creatures exceed it. -/
def simC7 : EvolutionSimulator :=
  { config :=
    { enabled := true, speed := 1, maxPopulation := 1, targetPopulation := 0
      autoBreed := false, naturalSelection := true }
    lastBreedTime := 0, generationCount := 0 }

/-- C7 counterexample: on a tick where the controller is enabled, natural
selection is enabled, the interval has elapsed and the population of two
exceeds the ceiling of one, but auto-breed is disabled, no cull pass runs:
the early return `if (!enabled || !autoBreed) return` skips natural
selection as well, removing nobody and leaving the state unchanged. -/
theorem naturalSelection_skipped_without_autoBreed :
    EvolutionSimulator.update simC7 100000 [cA, cB] (fun l => l) =
        (simC7, none, []) ∧
      simC7.config.enabled = true ∧ simC7.config.naturalSelection = true ∧
      ([cA, cB] : List Creature).length > simC7.config.maxPopulation ∧
      (100000 : ℚ) - simC7.lastBreedTime > 60 / simC7.config.speed * 1000 := by
  refine ⟨?_, rfl, rfl, by norm_num [simC7], by norm_num [simC7]⟩
  simp [EvolutionSimulator.update, simC7]

/-- C7 (amended): on every tick where the controller is enabled, auto-breed
is enabled, natural selection is enabled, the breeding interval has elapsed
and the population exceeds the ceiling, the cull pass removes exactly
`min 5 (population - target)` individuals, taken from the bottom of the
population sorted ascending by fitness, where fitness is the unweighted
average of size, speed, stamina, and energy divided by stamina; the
removed individuals all have fitness at most that of every survivor of the
sorted list. Unlike the original claim, the pass does not run when
auto-breed is disabled, nor between interval ticks. -/
theorem cull_pass_on_tick (sim : EvolutionSimulator) (now : ℚ)
    (creatures : List Creature) (shuffle : List Creature → List Creature)
    (hen : sim.config.enabled = true) (hab : sim.config.autoBreed = true)
    (hns : sim.config.naturalSelection = true)
    (hover : creatures.length > sim.config.maxPopulation)
    (htime : now - sim.lastBreedTime > 60 / sim.config.speed * 1000) :
    (EvolutionSimulator.update sim now creatures shuffle).2.2 =
        (creatures.mergeSort EvolutionSimulator.fitnessLe).take
          (min 5 (creatures.length - sim.config.targetPopulation)) ∧
    ((EvolutionSimulator.update sim now creatures shuffle).2.2).length =
        min 5 (creatures.length - sim.config.targetPopulation) ∧
    (∀ a ∈ (EvolutionSimulator.update sim now creatures shuffle).2.2,
      ∀ b ∈ (creatures.mergeSort EvolutionSimulator.fitnessLe).drop
          (min 5 (creatures.length - sim.config.targetPopulation)),
        EvolutionSimulator.calculateFitness a ≤ EvolutionSimulator.calculateFitness b) ∧
    (∀ c : Creature, EvolutionSimulator.calculateFitness c =
      (c.traits.size + c.traits.speed + c.traits.stamina +
        c.energy / c.traits.stamina) / 4) := by
  have hcond : ¬(sim.config.enabled = false ∨ sim.config.autoBreed = false) := by
    simp [hen, hab]
  have hremoved : (EvolutionSimulator.update sim now creatures shuffle).2.2 =
      EvolutionSimulator.applyNaturalSelection creatures sim.config := by
    simp only [EvolutionSimulator.update]
    rw [if_neg hcond, if_pos htime]
    show (if sim.config.naturalSelection = true ∧
        creatures.length > sim.config.maxPopulation then
          EvolutionSimulator.applyNaturalSelection creatures sim.config
        else []) = EvolutionSimulator.applyNaturalSelection creatures sim.config
    exact if_pos ⟨hns, hover⟩
  have htake : (EvolutionSimulator.update sim now creatures shuffle).2.2 =
      (creatures.mergeSort EvolutionSimulator.fitnessLe).take
        (min 5 (creatures.length - sim.config.targetPopulation)) := by
    rw [hremoved]
    rfl
  have hcount : min 5 (creatures.length - sim.config.targetPopulation) ≤
      (creatures.mergeSort EvolutionSimulator.fitnessLe).length := by
    rw [List.length_mergeSort]
    omega
  refine ⟨htake, ?_, ?_, fun c => rfl⟩
  · rw [htake, List.length_take]
    omega
  · intro a ha b hb
    rw [htake] at ha
    have htrans : ∀ a b c : Creature, EvolutionSimulator.fitnessLe a b = true →
        EvolutionSimulator.fitnessLe b c = true →
        EvolutionSimulator.fitnessLe a c = true := by
      intro a b c h1 h2
      simp only [EvolutionSimulator.fitnessLe, decide_eq_true_eq] at h1 h2 ⊢
      exact le_trans h1 h2
    have htotal : ∀ a b : Creature,
        (EvolutionSimulator.fitnessLe a b || EvolutionSimulator.fitnessLe b a) = true := by
      intro a b
      simp only [EvolutionSimulator.fitnessLe, Bool.or_eq_true, decide_eq_true_eq]
      exact le_total _ _
    have hsorted := List.sorted_mergeSort htrans htotal creatures
    have hsplit := List.take_append_drop
      (min 5 (creatures.length - sim.config.targetPopulation))
      (creatures.mergeSort EvolutionSimulator.fitnessLe)
    rw [← hsplit] at hsorted
    have hcross := (List.pairwise_append.mp hsorted).2.2
    have := hcross a ha b hb
    simpa [EvolutionSimulator.fitnessLe, decide_eq_true_eq] using this

/-- An enabled controller used to witness the cull pass. -/
def simC7w : EvolutionSimulator :=
  { config :=
    { enabled := true, speed := 1, maxPopulation := 1, targetPopulation := 0
      autoBreed := true, naturalSelection := true }
    lastBreedTime := 0, generationCount := 0 }

/-- C7 witness: with auto-breed enabled as well, the tick over a
two-creature population removes `min 5 2` creatures. -/
theorem cull_pass_on_tick_witness :
    ((EvolutionSimulator.update simC7w 100000 [cA, cB] (fun l => l)).2.2).length =
      min 5 (([cA, cB] : List Creature).length - simC7w.config.targetPopulation) :=
  (cull_pass_on_tick simC7w 100000 [cA, cB] (fun l => l) rfl rfl rfl
    (by norm_num [simC7w]) (by norm_num [simC7w])).2.1

/-! C8 -/

/-- A disabled controller with a nonzero generation count and a stale
last-attempt timestamp. -/
def simOff : EvolutionSimulator :=
  { config :=
    { enabled := false, speed := 1, maxPopulation := 50, targetPopulation := 20
      autoBreed := true, naturalSelection := false }
    lastBreedTime := 0, generationCount := 3 }

/-- The patch that re-enables the controller and nothing else. -/
def patchOn : SimulationConfigPatch := { enabled := some true }

/-- C8 counterexample: re-enabling the controller does not reset the
breeding-attempt timer — `setConfig` leaves `lastBreedTime` at its stale
value — so on the very first tick after re-enabling, the elapsed-interval
check passes and a breeding attempt fires immediately. -/
theorem reenable_fires_immediately :
    (EvolutionSimulator.setConfig simOff patchOn).lastBreedTime =
        simOff.lastBreedTime ∧
      (EvolutionSimulator.update (EvolutionSimulator.setConfig simOff patchOn)
          100000 [cA, cB] (fun l => l)).2.1 = some (cA, cB) := by
  constructor
  · rfl
  · have hcan : BreedingManager.canBreed cA cB = true := by
      norm_num [BreedingManager.canBreed, includesParentId, cA, cB, tBase]
      decide
    have hfilter : List.filter
        (fun c => decide ((1 / 2 : ℚ) * c.traits.stamina < c.energy)) [cA, cB] =
        [cA, cB] := by
      norm_num [List.filter_cons, cA, cB, tBase]
    norm_num [EvolutionSimulator.update, EvolutionSimulator.setConfig,
      SimulationConfig.merge, EvolutionSimulator.tryAutoBreed,
      EvolutionSimulator.firstBreedablePair, hfilter, hcan, simOff, patchOn]

/-- C8 (amended): toggling the configuration through `setConfig` — in
particular disabling and re-enabling the controller — preserves the
lifetime generation counter, but also preserves (rather than resets) the
last-attempt timer, and it changes nothing beyond the configuration
fields, so no individuals are added or removed by the toggle itself. A
breeding attempt therefore can fire immediately on the first tick after
re-enabling whenever the stale timer is old enough. -/
theorem setConfig_preserves_timer_and_counter (sim : EvolutionSimulator)
    (p : SimulationConfigPatch) :
    (EvolutionSimulator.setConfig sim p).lastBreedTime = sim.lastBreedTime ∧
    (EvolutionSimulator.setConfig sim p).generationCount = sim.generationCount ∧
    (EvolutionSimulator.setConfig sim p).config = sim.config.merge p :=
  ⟨rfl, rfl, rfl⟩

/-! C9 -/

/-- C9 (confirmed): a single controller tick never removes more than five
individuals, whatever the state, population and shuffle: the removal count
is capped by `Math.min(5, ...)`. -/
theorem update_removes_at_most_five (sim : EvolutionSimulator) (now : ℚ)
    (creatures : List Creature) (shuffle : List Creature → List Creature) :
    ((EvolutionSimulator.update sim now creatures shuffle).2.2).length ≤ 5 := by
  have hsel : ∀ (cs : List Creature) (cfg : SimulationConfig),
      (EvolutionSimulator.applyNaturalSelection cs cfg).length ≤ 5 := by
    intro cs cfg
    simp only [EvolutionSimulator.applyNaturalSelection, List.length_take]
    omega
  rw [EvolutionSimulator.update]
  by_cases h1 : sim.config.enabled = false ∨ sim.config.autoBreed = false
  · rw [if_pos h1]
    simp
  · rw [if_neg h1]
    by_cases h2 : now - sim.lastBreedTime > 60 / sim.config.speed * 1000
    · rw [if_pos h2]
      show (if sim.config.naturalSelection = true ∧
          creatures.length > sim.config.maxPopulation then
            EvolutionSimulator.applyNaturalSelection creatures sim.config
          else []).length ≤ 5
      by_cases h3 : sim.config.naturalSelection = true ∧
          creatures.length > sim.config.maxPopulation
      · rw [if_pos h3]
        exact hsel creatures sim.config
      · rw [if_neg h3]
        simp
    · rw [if_neg h2]
      simp

/-! C10 -/

/-- A stored creature record whose recorded energy (`5`) exceeds the
stamina (`1`) of its recorded traits — for example an externally produced
pool record. -/
def recBadInit : CreatureInit :=
  { id := some ['x'], name := some ['X', 'y'], traits := some tBase
    generation := some 7, parentIds := none, birthTime := some 1
    energy := some 5 }

/-- C10 counterexample: the constructor takes a nonzero stored energy
verbatim (`data.energy || stamina` never clamps), so a creature built from
a stored record with energy `5` and stamina `1` violates
`energy ≤ stamina`. -/
theorem construct_takes_energy_verbatim :
    (Creature.construct recBadInit dflBase).energy = 5 ∧
      (Creature.construct recBadInit dflBase).traits.stamina = 1 ∧
      ¬((Creature.construct recBadInit dflBase).energy ≤
        (Creature.construct recBadInit dflBase).traits.stamina) := by
  refine ⟨?_, ?_, ?_⟩ <;>
    norm_num [Creature.construct, jsOrNum, jsOrStr, jsOrNat, recBadInit,
      dflBase, tBase]

/-- C10 (amended): the per-tick energy update (decay floored at `0`, rest
regeneration capped at stamina), the feeding effect (capped at stamina) and
the breeding transaction (each parent keeps `70%` of its energy, the
offspring is built at full stamina) all keep `energy` within
`[0, stamina]`; but a creature constructed from a stored data record keeps
the record's nonzero energy verbatim, so the range is guaranteed only when
the stored energy itself lies in the range (a zero stored energy falls back
to full stamina). -/
theorem energy_range_under_operations :
    (∀ (c : Creature) (dt : ℚ), 0 ≤ dt → 0 ≤ c.traits.stamina →
      0 ≤ c.energy → c.energy ≤ c.traits.stamina →
      0 ≤ (c.update dt).energy ∧ (c.update dt).energy ≤ c.traits.stamina) ∧
    (∀ (c : Creature) (n : ℚ), 0 ≤ n → 0 ≤ c.traits.stamina → 0 ≤ c.energy →
      0 ≤ (FoodManager.eat c n).energy ∧
        (FoodManager.eat c n).energy ≤ c.traits.stamina) ∧
    (∀ (p1 p2 off p1s p2s : Creature) (d : BreedRands) (dfl : CreatureDefaults),
      BreedingManager.breed p1 p2 d dfl = .ok (off, p1s, p2s) →
      (0 ≤ p1.energy → p1.energy ≤ p1.traits.stamina →
        0 ≤ p1s.energy ∧ p1s.energy ≤ p1s.traits.stamina) ∧
      (0 ≤ p2.energy → p2.energy ≤ p2.traits.stamina →
        0 ≤ p2s.energy ∧ p2s.energy ≤ p2s.traits.stamina) ∧
      off.energy = off.traits.stamina) ∧
    (∀ (data : CreatureInit) (dfl : CreatureDefaults) (e : ℚ),
      data.energy = some e → e ≠ 0 →
      (Creature.construct data dfl).energy = e) := by
  refine ⟨?_, ?_, ?_, ?_⟩
  · intro c dt hdt hstam he0 he1
    have he1a : 0 ≤ max 0 (c.energy - dt * (1 / 10)) := le_max_left 0 _
    have he1b : max 0 (c.energy - dt * (1 / 10)) ≤ c.traits.stamina :=
      max_le hstam (by linarith)
    simp only [Creature.update]
    by_cases hlow : max 0 (c.energy - dt * (1 / 10)) < 3 / 10 * c.traits.stamina
    · rw [if_pos hlow]
      by_cases hidle : c.idleTime + dt > 2
      · rw [if_pos hidle]
        refine ⟨le_min hstam ?_, min_le_left _ _⟩
        have : (0 : ℚ) ≤ dt * (1 / 2) := by positivity
        linarith
      · rw [if_neg hidle]
        exact ⟨he1a, he1b⟩
    · rw [if_neg hlow]
      exact ⟨he1a, he1b⟩
  · intro c n hn hstam he0
    exact ⟨le_min hstam (by linarith), min_le_left _ _⟩
  · intro p1 p2 off p1s p2s d dfl hb
    by_cases hcond : p1.energy < p1.traits.stamina * (1 / 2) ∨
        p2.energy < p2.traits.stamina * (1 / 2)
    · rw [BreedingManager.breed, if_pos hcond] at hb
      exact absurd hb (by simp)
    · rw [BreedingManager.breed, if_neg hcond] at hb
      injection hb with htriple
      obtain ⟨hoff, hrest⟩ := Prod.mk.inj_iff.mp htriple
      obtain ⟨hp1, hp2⟩ := Prod.mk.inj_iff.mp hrest
      refine ⟨?_, ?_, ?_⟩
      · intro he0 he1
        have hp1e : p1s.energy = p1.energy * (7 / 10) := by rw [← hp1]
        have hp1t : p1s.traits = p1.traits := by rw [← hp1]
        rw [hp1e, hp1t]
        exact ⟨mul_nonneg he0 (by norm_num), by nlinarith⟩
      · intro he0 he1
        have hp2e : p2s.energy = p2.energy * (7 / 10) := by rw [← hp2]
        have hp2t : p2s.traits = p2.traits := by rw [← hp2]
        rw [hp2e, hp2t]
        exact ⟨mul_nonneg he0 (by norm_num), by nlinarith⟩
      · rw [← hoff]
        simp [Creature.construct, jsOrNum]
  · intro data dfl e hdata hne
    simp [Creature.construct, jsOrNum, hdata, hne]

/-- C10 witness: one tick of decay on a full-energy founder keeps its
energy within range. -/
theorem energy_range_under_operations_witness :
    0 ≤ (cA.update 1).energy ∧ (cA.update 1).energy ≤ cA.traits.stamina :=
  energy_range_under_operations.1 cA 1 (by norm_num)
    (by norm_num [cA, tBase]) (by norm_num [cA]) (by norm_num [cA, tBase])
